import Mathlib

/-!
Shallow embedding of the HomeMon web dashboard's chart engine
(`webui/js/charts.js`, class `ChartManager`, together with the dataset/axis
defaults of `config.js`).  Timestamps are modelled as integers (milliseconds
since the epoch, the value of a JS `Date`), metric values as rationals, the
`Map` objects `charts`/`originalData` and the JSON objects persisted in
`localStorage` as association lists with JavaScript `Map`/object-assignment
semantics (assignment replaces the value of an existing key in place,
otherwise appends).
-/

namespace HomeMon

/-- Chart.js data point `{x: timestamp, y: value}`. -/
structure Point where
  x : Int
  y : Rat
deriving DecidableEq, Repr

/-- Measurement record delivered by the REST collaborator; the ISO-8601
timestamp string is modelled already parsed to milliseconds. -/
structure Measurement where
  timestamp : Int
  temperature : Rat
  humidity : Rat
  battery_voltage : Rat
deriving DecidableEq, Repr

/-- Rounding to 2 decimal places: `Number(v.toFixed(2))`.  ECMAScript's
`toFixed` picks the closest hundredth, the larger one at ties, which is
`⌊100 v + 1/2⌋ / 100`. -/
def round2 (q : Rat) : Rat := (⌊100 * q + 1/2⌋ : Int) / 100

/-- The callback of `data.map((point, index) => …)` in
`calculateMovingAverage`; it closes over `data` and `windowSize`. -/
def cmaPoint (data : List Point) (windowSize index : Nat) (point : Point) : Point :=
  let start := index - windowSize / 2
  let stop := min data.length (start + windowSize)
  let window := (data.drop start).take (stop - start)
  let sum := window.foldl (fun acc curr => acc + curr.y) 0
  { x := point.x, y := round2 (sum / window.length) }

/-- `ChartManager.calculateMovingAverage(data, windowSize)`.  `start` uses
truncated subtraction, which is `Math.max(0, index - Math.floor(windowSize/2))`;
`data.slice(start, end)` is `(data.drop start).take (end - start)`. -/
def calculateMovingAverage (data : List Point) (windowSize : Nat) : List Point :=
  if data.length = 0 then []
  else if data.length < windowSize then data
  else data.mapIdx (cmaPoint data windowSize)

/-- Stable sort by timestamp: `array.sort((a, b) => a.x - b.x)`. -/
def sortByX (l : List Point) : List Point :=
  l.insertionSort (fun a b => a.x ≤ b.x)

/-- Association-list lookup with first-key-wins semantics (`map.get(k)`,
`obj[k]`). -/
def alGet {α : Type} (l : List (String × α)) (k : String) : Option α :=
  match l with
  | [] => none
  | (k', v) :: rest => if k' = k then some v else alGet rest k

/-- Association-list assignment (`map.set(k, v)`, `obj[k] = v`): replaces the
value of an existing key keeping its position, otherwise appends. -/
def alSet {α : Type} (l : List (String × α)) (k : String) (v : α) : List (String × α) :=
  match l with
  | [] => [(k, v)]
  | (k', v') :: rest => if k' = k then (k, v) :: rest else (k', v') :: alSet rest k v

/-- Association-list removal (`map.delete(k)`). -/
def alDel {α : Type} (l : List (String × α)) (k : String) : List (String × α) :=
  l.filter (fun p => p.1 != k)

/-- One Chart.js dataset, with the fields the manager reads or writes. -/
structure Dataset where
  data : List Point
  hidden : Bool
  yAxisID : String
deriving DecidableEq, Repr

/-- The fields of an entry of `CONFIG.DATASET_STYLES` that land on `Dataset`
fields the manager later reads (the style objects also carry colors and
`fill`, which nothing in the manager consumes). -/
structure DatasetStyle where
  yAxisID : String
  hidden : Bool
deriving DecidableEq, Repr

def DATASET_STYLES_temperature : DatasetStyle := { yAxisID := "temperature", hidden := false }

def DATASET_STYLES_humidity : DatasetStyle := { yAxisID := "humidity", hidden := false }

def DATASET_STYLES_battery : DatasetStyle := { yAxisID := "battery", hidden := false }

/-- JS object spread: `{…base-fields…, ...style}` assigns the style's own
properties after the literal's earlier ones, so `yAxisID` and `hidden` of the
style overwrite whatever the literal computed for them. -/
def styleSpread (base : Dataset) (style : DatasetStyle) : Dataset :=
  { base with yAxisID := style.yAxisID, hidden := style.hidden }

/-- The distinguishing content of a `chart.options.scales.x` object written by
`updateChartData`: time unit, fixed tick step (`stepSize`), `ticks.autoSkip`,
and whether `displayFormats` carries a `day` format (the multi-day label
callback). -/
structure XAxisConfig where
  unit : String
  stepSize : Option Nat
  autoSkip : Bool
  dayFormat : Bool
deriving DecidableEq, Repr

/-- The multi-day x-scale written when `daysDiff > 0`: hour unit, step 4,
`autoSkip: false`, two-line day labels. -/
def multiDayAxis : XAxisConfig :=
  { unit := "hour", stepSize := some 4, autoSkip := false, dayFormat := true }

/-- The single-day x-scale written when `daysDiff` is 0: hour unit, no fixed
step, `autoSkip: true`, time-only labels. -/
def singleDayAxis : XAxisConfig :=
  { unit := "hour", stepSize := none, autoSkip := true, dayFormat := false }

/-- The mutable state of one Chart.js instance that `ChartManager` touches:
the three datasets (`data.datasets[0..2]`), the three value-axis `display`
flags (`options.scales.temperature/humidity/battery.display`), the x scale
(`none` standing for the untouched deep-cloned `CONFIG.CHART_OPTIONS.scales.x`)
and the point radius of `options.elements.point`. -/
structure ChartJs where
  temperatureDs : Dataset
  humidityDs : Dataset
  batteryDs : Dataset
  temperatureDisplay : Bool
  humidityDisplay : Bool
  batteryDisplay : Bool
  scaleX : Option XAxisConfig
  pointRadius : Nat
deriving DecidableEq, Repr

/-- One entry of `this.originalData`: the raw sorted series triple stored by
`updateChartData`. -/
structure Snapshot where
  temperature : List Point
  humidity : List Point
  battery : List Point
deriving DecidableEq, Repr

/-- The `localStorage` keys the chart manager touches: `datasetStates` (a JSON
object sensor id → metric → visible) and `smoothingEnabled` (`none` when the
key was never written). -/
structure Store where
  datasetStates : List (String × List (String × Bool))
  smoothingEnabled : Option Bool
deriving DecidableEq, Repr

/-- The state of a `ChartManager` instance plus the `localStorage` it reads
and writes. -/
structure MgrState where
  charts : List (String × ChartJs)
  originalData : List (String × Snapshot)
  smoothingEnabled : Bool
  windowSize : Nat
  store : Store
deriving DecidableEq, Repr

/-- `new ChartManager()` over a given persisted store: empty maps, smoothing
off, window size 5.  The constructor does not read the store. -/
def mkChartManager (store : Store) : MgrState :=
  { charts := [], originalData := [], smoothingEnabled := false, windowSize := 5, store := store }

/-- The saved-visibility hidden flag computed in the dataset literals of
`createChart`: `sensorStates[metric] === undefined ? false : !sensorStates[metric]`. -/
def savedHidden (sensorStates : List (String × Bool)) (metric : String) : Bool :=
  match alGet sensorStates metric with
  | none => false
  | some v => !v

/-- `ChartManager.createChart(sensorId, container)`: reads `datasetStates`
from the store, builds the three dataset literals (whose computed `hidden`
flag is then overwritten by the spread of the style object), sets the three
value-axis display flags from the datasets' `hidden` flags, and registers the
chart in the map, returning it.  There is no duplicate-id check: an existing
entry for `sensorId` is overwritten. -/
def createChart (s : MgrState) (sensorId : String) : MgrState × ChartJs :=
  let datasetStates := s.store.datasetStates
  let sensorStates := (alGet datasetStates sensorId).getD []
  let tempDs := styleSpread
    { data := [], hidden := savedHidden sensorStates "temperature", yAxisID := "" }
    DATASET_STYLES_temperature
  let humDs := styleSpread
    { data := [], hidden := savedHidden sensorStates "humidity", yAxisID := "" }
    DATASET_STYLES_humidity
  let batDs := styleSpread
    { data := [], hidden := savedHidden sensorStates "battery", yAxisID := "" }
    DATASET_STYLES_battery
  let chart : ChartJs :=
    { temperatureDs := tempDs
      humidityDs := humDs
      batteryDs := batDs
      temperatureDisplay := !tempDs.hidden
      humidityDisplay := !humDs.hidden
      batteryDisplay := !batDs.hidden
      scaleX := none
      pointRadius := 0 }
  ({ s with charts := alSet s.charts sensorId chart }, chart)

/-- The temperature points built by the `measurements.forEach` loop. -/
def tempPoints (ms : List Measurement) : List Point :=
  ms.map (fun m => { x := m.timestamp, y := m.temperature })

/-- The humidity points built by the `measurements.forEach` loop. -/
def humPoints (ms : List Measurement) : List Point :=
  ms.map (fun m => { x := m.timestamp, y := m.humidity })

/-- The battery points built by the `measurements.forEach` loop. -/
def batPoints (ms : List Measurement) : List Point :=
  ms.map (fun m => { x := m.timestamp, y := m.battery_voltage })

/-- The x-scale decision block of `updateChartData` (lines guarded by
`if (firstDate && lastDate)`): when the displayed temperature series is
non-empty, `daysDiff = Math.floor((lastDate - firstDate) / 86400000)` selects
the multi-day scale when positive and the single-day scale otherwise; an empty
series leaves the previous x scale in place. -/
def selectXAxis (finalTempData : List Point) (old : Option XAxisConfig) : Option XAxisConfig :=
  match finalTempData.head?, finalTempData.getLast? with
  | some firstDate, some lastDate =>
    let daysDiff := (lastDate.x - firstDate.x).fdiv (1000 * 60 * 60 * 24)
    if daysDiff > 0 then some multiDayAxis else some singleDayAxis
  | _, _ => old

/-- `ChartManager.updateChartData(sensorId, measurements)`: a silent no-op
when no chart exists for the id; otherwise sorts the three raw series, stores
them in `originalData`, applies smoothing to the displayed copies when the
global flag is on, replaces the three dataset contents, sets the point radius
(4 for a single measurement, else 0) and the x scale. -/
def updateChartData (s : MgrState) (sensorId : String) (measurements : List Measurement) :
    MgrState :=
  match alGet s.charts sensorId with
  | none => s
  | some chart =>
    let temperatureData := sortByX (tempPoints measurements)
    let humidityData := sortByX (humPoints measurements)
    let batteryData := sortByX (batPoints measurements)
    let snap : Snapshot :=
      { temperature := temperatureData, humidity := humidityData, battery := batteryData }
    let finalTempData :=
      if s.smoothingEnabled then calculateMovingAverage temperatureData s.windowSize
      else temperatureData
    let finalHumidityData :=
      if s.smoothingEnabled then calculateMovingAverage humidityData s.windowSize
      else humidityData
    let finalBatteryData :=
      if s.smoothingEnabled then calculateMovingAverage batteryData s.windowSize
      else batteryData
    let chart' : ChartJs :=
      { chart with
        temperatureDs := { chart.temperatureDs with data := finalTempData }
        humidityDs := { chart.humidityDs with data := finalHumidityData }
        batteryDs := { chart.batteryDs with data := finalBatteryData }
        pointRadius := if measurements.length = 1 then 4 else 0
        scaleX := selectXAxis finalTempData chart.scaleX }
    { s with
      charts := alSet s.charts sensorId chart'
      originalData := alSet s.originalData sensorId snap }

/-- `chart.options.scales[type].display = visible` for the three value axes. -/
def setScaleDisplay (c : ChartJs) (type : String) (visible : Bool) : ChartJs :=
  if type = "temperature" then { c with temperatureDisplay := visible }
  else if type = "humidity" then { c with humidityDisplay := visible }
  else if type = "battery" then { c with batteryDisplay := visible }
  else c

/-- The per-chart part of `toggleDataset`: find the dataset whose `yAxisID`
is `type` (array order temperature, humidity, battery), and when found set its
`hidden` flag to `!visible` and the `type` scale's `display` to `visible`. -/
def applyToggle (c : ChartJs) (type : String) (visible : Bool) : ChartJs :=
  if c.temperatureDs.yAxisID = type then
    setScaleDisplay { c with temperatureDs := { c.temperatureDs with hidden := !visible } }
      type visible
  else if c.humidityDs.yAxisID = type then
    setScaleDisplay { c with humidityDs := { c.humidityDs with hidden := !visible } }
      type visible
  else if c.batteryDs.yAxisID = type then
    setScaleDisplay { c with batteryDs := { c.batteryDs with hidden := !visible } }
      type visible
  else c

/-- The persistence block of `toggleDataset`'s loop body: read
`datasetStates`, materialise the sensor's entry when absent, set
`[sensorId][type] = visible`, write back. -/
def saveDatasetState (st : Store) (sensorId type : String) (visible : Bool) : Store :=
  let sensorEntry := (alGet st.datasetStates sensorId).getD []
  { st with datasetStates := alSet st.datasetStates sensorId (alSet sensorEntry type visible) }

/-- `ChartManager.toggleDataset(type, visible)`: for every chart in map order,
flip the matching dataset's hidden flag and axis display, and persist the
per-sensor visibility entry. -/
def toggleDataset (s : MgrState) (type : String) (visible : Bool) : MgrState :=
  let step := fun (acc : List (String × ChartJs) × Store) (e : String × ChartJs) =>
    (acc.1 ++ [(e.1, applyToggle e.2 type visible)], saveDatasetState acc.2 e.1 type visible)
  let r := s.charts.foldl step ([], s.store)
  { s with charts := r.1, store := r.2 }

/-- The per-chart part of `toggleSmoothing`: charts without a cached snapshot
are left as-is; with a snapshot, the three dataset contents are recomputed
from the raw cache (smoothed when enabling, the raw copies when disabling). -/
def applySmoothing (s : MgrState) (sensorId : String) (chart : ChartJs) (enabled : Bool) :
    ChartJs :=
  match alGet s.originalData sensorId with
  | none => chart
  | some od =>
    if enabled then
      { chart with
        temperatureDs :=
          { chart.temperatureDs with data := calculateMovingAverage od.temperature s.windowSize }
        humidityDs :=
          { chart.humidityDs with data := calculateMovingAverage od.humidity s.windowSize }
        batteryDs :=
          { chart.batteryDs with data := calculateMovingAverage od.battery s.windowSize } }
    else
      { chart with
        temperatureDs := { chart.temperatureDs with data := od.temperature }
        humidityDs := { chart.humidityDs with data := od.humidity }
        batteryDs := { chart.batteryDs with data := od.battery } }

/-- `ChartManager.toggleSmoothing(enabled)`: set the in-memory flag, persist
it to `localStorage['smoothingEnabled']`, then refresh every chart that has a
cached snapshot (the loop reads only `originalData`, `windowSize` and the
`enabled` argument, none of which the first two assignments change). -/
def toggleSmoothing (s : MgrState) (enabled : Bool) : MgrState :=
  { charts := s.charts.map (fun e => (e.1, applySmoothing s e.1 e.2 enabled))
    originalData := s.originalData
    smoothingEnabled := enabled
    windowSize := s.windowSize
    store := { s.store with smoothingEnabled := some enabled } }

/-- `ChartManager.destroyChart(sensorId)`: a silent no-op when no chart
exists; otherwise removes the chart and evicts the cached snapshot. -/
def destroyChart (s : MgrState) (sensorId : String) : MgrState :=
  match alGet s.charts sensorId with
  | none => s
  | some _ =>
    { s with charts := alDel s.charts sensorId, originalData := alDel s.originalData sensorId }

/-- One `setSmoothing(true); setSmoothing(false)` cycle of the spec's
round-trip property. -/
def smoothingCycle (s : MgrState) : MgrState :=
  toggleSmoothing (toggleSmoothing s true) false

/-! Spec-side definitions, written from the specification's wording, to be
compared with the embedded code. -/

/-- Modelled from the spec: the smoothing window at index `i` — the values of
the window starting at `max(0, i - ⌊windowSize/2⌋)` and extending `windowSize`
points, clamped to the series length (shorter near the right edge, never
wrapped or padded). -/
def specWindow (data : List Point) (windowSize i : Nat) : List Rat :=
  ((data.drop (i - windowSize / 2)).take windowSize).map Point.y

/-- Modelled from the spec: the smoothed value at index `i` — the arithmetic
mean of the window's values, rounded to 2 decimal places. -/
def specSmoothValue (data : List Point) (windowSize i : Nat) : Rat :=
  round2 ((specWindow data windowSize i).sum / (specWindow data windowSize i).length)

/-- Modelled from the spec: `spanDays = floor((lastTimestamp - firstTimestamp)
/ 1 day)` from the first and last points of a series (0 for an empty series,
for which the spec prescribes no span). -/
def specSpanDays (series : List Point) : Int :=
  match series.head?, series.getLast? with
  | some f, some l => (l.x - f.x).fdiv (1000 * 60 * 60 * 24)
  | _, _ => 0

/-- The snapshot that `updateChartData` stores for a measurement batch: the
three per-metric series, sorted by timestamp. -/
def rawSnapshot (ms : List Measurement) : Snapshot :=
  { temperature := sortByX (tempPoints ms)
    humidity := sortByX (humPoints ms)
    battery := sortByX (batPoints ms) }

/-- The persisted visibility entry for one sensor and metric:
`JSON.parse(localStorage['datasetStates'])[sid][metric]`. -/
def getVis (st : Store) (sid metric : String) : Option Bool :=
  (alGet st.datasetStates sid).bind (fun l => alGet l metric)

/-! Concrete inputs used by witnesses and counterexamples. -/

/-- A store with nothing persisted. -/
def emptyStore : Store := { datasetStates := [], smoothingEnabled := none }

def m1 : Measurement :=
  { timestamp := 0, temperature := 10, humidity := 50, battery_voltage := 3 }

def m2 : Measurement :=
  { timestamp := 86401000, temperature := 11, humidity := 51, battery_voltage := 3 }

/-- A measurement pair spanning exactly 23h59m. -/
def mSpanA : List Measurement :=
  [m1, { timestamp := 86340000, temperature := 12, humidity := 52, battery_voltage := 3 }]

/-- A measurement pair spanning 24h0m1s. -/
def mSpanB : List Measurement := [m1, m2]

def st0 : MgrState := mkChartManager emptyStore

/-- The chart built by the first `createChart` on a fresh manager. -/
def ch1 : ChartJs := (createChart st0 "a").2

def st1 : MgrState := (createChart st0 "a").1

/-- The manager after one multi-day update of sensor `a`. -/
def st2 : MgrState := updateChartData st1 "a" mSpanB

/-- The five-point example series of the spec's smoother property. -/
def ex5 : List Point := [⟨0, 10⟩, ⟨1, 20⟩, ⟨2, 30⟩, ⟨3, 40⟩, ⟨4, 50⟩]

/-- A store carrying a persisted `smoothingEnabled = true`. -/
def store7 : Store := { datasetStates := [], smoothingEnabled := some true }

/-- A store in which sensor `s1`'s temperature was persisted invisible. -/
def store8 : Store :=
  { datasetStates := [("s1", [("temperature", false)])], smoothingEnabled := none }

/-! Helper lemmas about the embedded operations. -/

theorem alGet_alSet_self {α : Type} (l : List (String × α)) (k : String) (v : α) :
    alGet (alSet l k v) k = some v := by
  induction l with
  | nil => simp [alSet, alGet]
  | cons e rest ih =>
    obtain ⟨k', v'⟩ := e
    by_cases h : k' = k
    · simp [alSet, alGet, h]
    · simp [alSet, alGet, h, ih]

theorem alGet_alSet_ne {α : Type} (l : List (String × α)) (k k' : String) (v : α)
    (h : k ≠ k') : alGet (alSet l k v) k' = alGet l k' := by
  induction l with
  | nil => simp [alSet, alGet, h]
  | cons e rest ih =>
    obtain ⟨k₀, v₀⟩ := e
    by_cases h0 : k₀ = k
    · subst h0
      simp [alSet, alGet, h]
    · simp only [alSet, if_neg h0]
      by_cases h1 : k₀ = k'
      · simp [alGet, h1]
      · simp [alGet, h1, ih]

theorem alGet_map {α β : Type} (f : String → α → β) (l : List (String × α)) (k : String) :
    alGet (l.map (fun e => (e.1, f e.1 e.2))) k = (alGet l k).map (f k) := by
  induction l with
  | nil => simp [alGet]
  | cons e rest ih =>
    obtain ⟨k₀, v₀⟩ := e
    by_cases h : k₀ = k
    · subst h
      simp [alGet]
    · simp [alGet, h, ih]

theorem alGet_isSome_iff_mem {α : Type} (l : List (String × α)) (k : String) :
    (alGet l k).isSome ↔ k ∈ l.map Prod.fst := by
  induction l with
  | nil => simp [alGet]
  | cons e rest ih =>
    obtain ⟨k₀, v₀⟩ := e
    by_cases h : k₀ = k
    · subst h
      simp [alGet]
    · simp [alGet, h, ih, Ne.symm h]

theorem map_fst_alSet {α : Type} (l : List (String × α)) (k : String) (v : α) :
    (alSet l k v).map Prod.fst =
      if k ∈ l.map Prod.fst then l.map Prod.fst else l.map Prod.fst ++ [k] := by
  induction l with
  | nil => simp [alSet]
  | cons e rest ih =>
    obtain ⟨k₀, v₀⟩ := e
    by_cases h : k₀ = k
    · subst h
      simp [alSet]
    · by_cases hm : k ∈ rest.map Prod.fst
      · simp [alSet, h, ih, hm, Ne.symm h]
      · simp [alSet, h, ih, hm, Ne.symm h]

theorem nodup_keys_alSet {α : Type} (l : List (String × α)) (k : String) (v : α)
    (h : (l.map Prod.fst).Nodup) : ((alSet l k v).map Prod.fst).Nodup := by
  rw [map_fst_alSet]
  by_cases hm : k ∈ l.map Prod.fst
  · simpa [hm] using h
  · simp only [if_neg hm, List.nodup_append]
    refine ⟨h, List.nodup_singleton k, ?_⟩
    intro a ha hb
    simp only [List.mem_singleton] at hb
    subst hb
    exact hm ha

theorem cmaPoint_x (data : List Point) (w i : Nat) (p : Point) :
    (cmaPoint data w i p).x = p.x := rfl

theorem cma_map_x (data : List Point) (w : Nat) :
    (calculateMovingAverage data w).map Point.x = data.map Point.x := by
  unfold calculateMovingAverage
  by_cases h0 : data.length = 0
  · rw [if_pos h0]
    rw [List.length_eq_zero] at h0
    simp [h0]
  · rw [if_neg h0]
    by_cases h1 : data.length < w
    · rw [if_pos h1]
    · rw [if_neg h1, List.mapIdx_eq_enum_map, List.map_map]
      have hcomp : (Point.x ∘ Function.uncurry (cmaPoint data w)) = Point.x ∘ Prod.snd := by
        funext q
        obtain ⟨i, p⟩ := q
        rfl
      rw [hcomp, ← List.map_map, List.enum_map_snd]

theorem cma_length (data : List Point) (w : Nat) :
    (calculateMovingAverage data w).length = data.length := by
  have h := congrArg List.length (cma_map_x data w)
  simpa using h

theorem cma_head?_x (data : List Point) (w : Nat) :
    (calculateMovingAverage data w).head?.map Point.x = data.head?.map Point.x := by
  have h := congrArg List.head? (cma_map_x data w)
  simpa [List.head?_map] using h

theorem cma_getLast?_x (data : List Point) (w : Nat) :
    (calculateMovingAverage data w).getLast?.map Point.x = data.getLast?.map Point.x := by
  have h := congrArg List.getLast? (cma_map_x data w)
  simpa [List.getLast?_map] using h

theorem cma_of_length_lt (data : List Point) (w : Nat) (h : data.length < w) :
    calculateMovingAverage data w = data := by
  unfold calculateMovingAverage
  by_cases h0 : data.length = 0
  · rw [if_pos h0]
    rw [List.length_eq_zero] at h0
    simp [h0]
  · rw [if_neg h0, if_pos h]

theorem round2_idem (q : Rat) : round2 (round2 q) = round2 q := by
  unfold round2
  have h100 : (100 : Rat) ≠ 0 := by norm_num
  rw [mul_div_cancel₀ _ h100]
  have : ⌊(⌊100 * q + 1 / 2⌋ : Rat) + 1 / 2⌋ = ⌊100 * q + 1 / 2⌋ := by
    rw [Int.floor_int_add]
    norm_num
  rw [this]

theorem foldl_add_y (l : List Point) (a : Rat) :
    l.foldl (fun acc curr => acc + curr.y) a = a + (l.map Point.y).sum := by
  induction l generalizing a with
  | nil => simp
  | cons p rest ih => simp [ih, add_assoc]


theorem alGet_alDel_self {α : Type} (l : List (String × α)) (k : String) :
    alGet (alDel l k) k = none := by
  induction l with
  | nil => simp [alDel, alGet]
  | cons e rest ih =>
    obtain ⟨k₀, v₀⟩ := e
    by_cases h : k₀ = k
    · simpa [alDel, h] using ih
    · simpa [alDel, alGet, h] using ih

theorem destroyChart_charts_self (s : MgrState) (id : String) :
    alGet (destroyChart s id).charts id = none := by
  unfold destroyChart
  cases h : alGet s.charts id with
  | none => simpa using h
  | some c => simpa using alGet_alDel_self s.charts id

/-- Claim C3 (counterexample): after `destroyChart` of sensor `a`, the
operations `updateChartData` and `destroyChart` on `a` complete and return the
manager state unchanged — they do not fail with `UnknownSensorError` (no such
failure exists in the code's semantics). -/
theorem c3_counterexample :
    alGet (destroyChart st2 "a").charts "a" = none ∧
    updateChartData (destroyChart st2 "a") "a" [m1] = destroyChart st2 "a" ∧
    destroyChart (destroyChart st2 "a") "a" = destroyChart st2 "a" := by
  exact ⟨by decide, by decide, by decide⟩

/-- Claim C3 (amended): `updateChartData` and `destroyChart` on a sensor id
with no chart handle are silent no-ops returning the state unchanged (no
`UnknownSensorError` exists in the code), and `createChart(id)` after
`destroyChart(id)` succeeds and starts with three empty datasets. -/
theorem c3_unknown_id_noop (s : MgrState) (id : String) (ms : List Measurement) :
    (alGet s.charts id = none → updateChartData s id ms = s ∧ destroyChart s id = s) ∧
    alGet (destroyChart s id).charts id = none ∧
    alGet (createChart (destroyChart s id) id).1.charts id
      = some (createChart (destroyChart s id) id).2 ∧
    (createChart (destroyChart s id) id).2.temperatureDs.data = [] ∧
    (createChart (destroyChart s id) id).2.humidityDs.data = [] ∧
    (createChart (destroyChart s id) id).2.batteryDs.data = [] := by
  refine ⟨fun h => ⟨?_, ?_⟩, destroyChart_charts_self s id, ?_, rfl, rfl, rfl⟩
  · unfold updateChartData
    rw [h]
  · unfold destroyChart
    rw [h]
  · exact alGet_alSet_self _ id _

theorem c3_witness :
    (alGet st0.charts "a" = none) ∧
    (updateChartData st0 "a" [m1] = st0 ∧ destroyChart st0 "a" = st0) ∧
    alGet (createChart (destroyChart st2 "a") "a").1.charts "a"
      = some (createChart (destroyChart st2 "a") "a").2 ∧
    (createChart (destroyChart st2 "a") "a").2.temperatureDs.data = [] := by
  refine ⟨by decide, (c3_unknown_id_noop st0 "a" [m1]).1 (by decide), ?_, ?_⟩
  · exact (c3_unknown_id_noop st2 "a" []).2.2.1
  · exact (c3_unknown_id_noop st2 "a" []).2.2.2.1

theorem c4_counterexample :
    ((alGet st2.charts "a").map (fun c => c.temperatureDs.data)
      = some [⟨0, 10⟩, ⟨86401000, 11⟩]) ∧
    ((alGet (createChart st2 "a").1.charts "a").map (fun c => c.temperatureDs.data)
      = some []) := by
  exact ⟨by decide, by decide⟩

/-- Claim C4 (amended): `createChart` for an id that already has a chart does
not fail; it registers a fresh chart with three empty datasets, replacing the
map entry, so lookup still yields exactly one (the newest) chart per id and
key uniqueness of the registry is preserved. -/
theorem c4_create_replaces (s : MgrState) (id : String) :
    alGet (createChart s id).1.charts id = some (createChart s id).2 ∧
    (createChart s id).2.temperatureDs.data = [] ∧
    (createChart s id).2.humidityDs.data = [] ∧
    (createChart s id).2.batteryDs.data = [] ∧
    ((s.charts.map Prod.fst).Nodup → (((createChart s id).1.charts).map Prod.fst).Nodup) := by
  exact ⟨alGet_alSet_self _ id _, rfl, rfl, rfl, fun h => nodup_keys_alSet _ id _ h⟩

theorem c4_witness :
    (st2.charts.map Prod.fst).Nodup ∧
    (((createChart st2 "a").1.charts).map Prod.fst).Nodup ∧
    alGet (createChart st2 "a").1.charts "a" = some (createChart st2 "a").2 := by
  exact ⟨by decide, (c4_create_replaces st2 "a").2.2.2.2 (by decide),
    (c4_create_replaces st2 "a").1⟩

theorem c7_counterexample :
    (toggleSmoothing st2 true).store.smoothingEnabled = some true ∧
    (mkChartManager (toggleSmoothing st2 true).store).smoothingEnabled = false ∧
    (mkChartManager store7).smoothingEnabled = false := by
  exact ⟨rfl, rfl, rfl⟩

/-- Claim C7 (amended): the global smoothing flag defaults to `false`;
`toggleSmoothing(enabled)` sets the in-memory flag synchronously (visible to
subsequent reads in the same process) and persists it to the store, but a
freshly constructed `ChartManager` never reads the persisted flag, so after a
restart the flag reads `false` regardless of the persisted value. -/
theorem c7_smoothing_flag (store : Store) (s : MgrState) (e : Bool) :
    (mkChartManager store).smoothingEnabled = false ∧
    (toggleSmoothing s e).smoothingEnabled = e ∧
    (toggleSmoothing s e).store.smoothingEnabled = some e ∧
    (mkChartManager (toggleSmoothing s e).store).smoothingEnabled = false := by
  exact ⟨rfl, rfl, rfl, rfl⟩

/-- Claim C8 (code bug): with sensor `s1`'s temperature persisted invisible,
the saved-visibility expression of `createChart` computes `hidden = true`, but
the created dataset is nevertheless visible and its axis displayed, because
the spread of `CONFIG.DATASET_STYLES.temperature` (which carries
`hidden: false`) comes after the computed flag in the dataset literal and
overwrites it. -/
theorem c8_code_behavior :
    savedHidden [("temperature", false)] "temperature" = true ∧
    (createChart (mkChartManager store8) "s1").2.temperatureDs.hidden = false ∧
    (createChart (mkChartManager store8) "s1").2.temperatureDisplay = true := by
  exact ⟨rfl, rfl, rfl⟩

theorem c9_counterexample :
    (alGet st2.charts "a").map ChartJs.scaleX = some (some multiDayAxis) ∧
    (alGet (updateChartData st2 "a" []).charts "a").map ChartJs.scaleX
      = some (some multiDayAxis) ∧
    multiDayAxis ≠ singleDayAxis := by
  exact ⟨by decide, by decide, by decide⟩

/-- Claim C9 (amended): when `updateChartData` is given an empty measurement
batch, the x-scale configuration is left exactly as the chart had it before
(the axis block is guarded by the first/last point check), while the three
dataset contents are replaced by empty series. -/
theorem c9_empty_update_keeps_axis (s : MgrState) (id : String) (ch : ChartJs)
    (h : alGet s.charts id = some ch) :
    (alGet (updateChartData s id []).charts id).map ChartJs.scaleX = some ch.scaleX ∧
    (alGet (updateChartData s id []).charts id).map (fun c => c.temperatureDs.data)
      = some [] ∧
    (alGet (updateChartData s id []).charts id).map (fun c => c.humidityDs.data)
      = some [] ∧
    (alGet (updateChartData s id []).charts id).map (fun c => c.batteryDs.data)
      = some [] := by
  unfold updateChartData
  rw [h]
  simp [alGet_alSet_self, tempPoints, humPoints, batPoints, sortByX, List.insertionSort,
    calculateMovingAverage, selectXAxis, ite_self]

theorem c9_witness :
    (alGet st1.charts "a" = some ch1) ∧
    (alGet (updateChartData st1 "a" []).charts "a").map ChartJs.scaleX = some ch1.scaleX ∧
    (alGet (updateChartData st1 "a" []).charts "a").map (fun c => c.temperatureDs.data)
      = some [] := by
  have h := c9_empty_update_keeps_axis st1 "a" ch1 (by decide)
  exact ⟨by decide, h.1, h.2.1⟩


theorem toggleSmoothing_originalData (s : MgrState) (e : Bool) :
    (toggleSmoothing s e).originalData = s.originalData := rfl

theorem iterate_smoothingCycle_originalData (n : Nat) :
    ∀ s : MgrState, ((smoothingCycle)^[n] s).originalData = s.originalData := by
  induction n with
  | zero => intro s; rfl
  | succ n ih =>
    intro s
    rw [Function.iterate_succ_apply, ih]
    rfl

theorem alGet_toggleSmoothing_charts (s : MgrState) (e : Bool) (id : String) :
    alGet (toggleSmoothing s e).charts id
      = (alGet s.charts id).map (fun ch => applySmoothing s id ch e) :=
  alGet_map (fun k v => applySmoothing s k v e) s.charts id

theorem restore_after_disable (s : MgrState) (id : String) (snap : Snapshot)
    (h : alGet s.originalData id = some snap) (ch' : ChartJs)
    (h' : alGet (toggleSmoothing s false).charts id = some ch') :
    ch'.temperatureDs.data = snap.temperature ∧
    ch'.humidityDs.data = snap.humidity ∧
    ch'.batteryDs.data = snap.battery := by
  rw [alGet_toggleSmoothing_charts] at h'
  obtain ⟨ch0, _, hmap⟩ := Option.map_eq_some'.mp h'
  subst hmap
  simp [applySmoothing, h]

/-- Claim C1: for every sensor with a chart handle, `updateChartData` stores
the raw sorted series in `originalData`; that cache is unchanged by any number
of `toggleSmoothing(true); toggleSmoothing(false)` cycles; and after a final
`toggleSmoothing(false)` the displayed dataset contents equal the cached raw
series — smoothing never mutates the raw cache and the smoothed view is
re-derived from it. -/
theorem c1_smoothing_roundtrip (s : MgrState) (id : String) (ms : List Measurement)
    (ch : ChartJs) (n : Nat) (h : alGet s.charts id = some ch) :
    alGet (updateChartData s id ms).originalData id = some (rawSnapshot ms) ∧
    alGet ((smoothingCycle)^[n] (updateChartData s id ms)).originalData id
      = some (rawSnapshot ms) ∧
    ∀ ch', alGet
        (toggleSmoothing ((smoothingCycle)^[n] (updateChartData s id ms)) false).charts id
        = some ch' →
      ch'.temperatureDs.data = (rawSnapshot ms).temperature ∧
      ch'.humidityDs.data = (rawSnapshot ms).humidity ∧
      ch'.batteryDs.data = (rawSnapshot ms).battery := by
  have hA : alGet (updateChartData s id ms).originalData id = some (rawSnapshot ms) := by
    unfold updateChartData
    rw [h]
    exact alGet_alSet_self _ id _
  have hB : alGet ((smoothingCycle)^[n] (updateChartData s id ms)).originalData id
      = some (rawSnapshot ms) := by
    rw [iterate_smoothingCycle_originalData]
    exact hA
  exact ⟨hA, hB, fun ch' h' => restore_after_disable _ id _ hB ch' h'⟩

theorem c1_witness :
    (alGet st1.charts "a" = some ch1) ∧
    alGet (updateChartData st1 "a" mSpanB).originalData "a" = some (rawSnapshot mSpanB) ∧
    (∀ ch', alGet
        (toggleSmoothing ((smoothingCycle)^[1] (updateChartData st1 "a" mSpanB)) false).charts
          "a" = some ch' →
      ch'.temperatureDs.data = (rawSnapshot mSpanB).temperature ∧
      ch'.humidityDs.data = (rawSnapshot mSpanB).humidity ∧
      ch'.batteryDs.data = (rawSnapshot mSpanB).battery) := by
  have h := c1_smoothing_roundtrip st1 "a" mSpanB ch1 1 (by decide)
  exact ⟨by decide, h.1, h.2.2⟩

theorem toggleDataset_foldl (type : String) (v : Bool) (L : List (String × ChartJs)) :
    ∀ (acc : List (String × ChartJs)) (st : Store),
      L.foldl (fun acc e => (acc.1 ++ [(e.1, applyToggle e.2 type v)],
          saveDatasetState acc.2 e.1 type v)) (acc, st)
        = (acc ++ L.map (fun e => (e.1, applyToggle e.2 type v)),
            L.foldl (fun st e => saveDatasetState st e.1 type v) st) := by
  induction L with
  | nil => intro acc st; simp
  | cons e rest ih =>
    intro acc st
    simp only [List.foldl_cons, List.map_cons, ih]
    simp

theorem toggleDataset_charts (s : MgrState) (type : String) (v : Bool) :
    (toggleDataset s type v).charts
      = s.charts.map (fun e => (e.1, applyToggle e.2 type v)) := by
  show (s.charts.foldl (fun acc e => (acc.1 ++ [(e.1, applyToggle e.2 type v)],
      saveDatasetState acc.2 e.1 type v)) ([], s.store)).1
    = s.charts.map (fun e => (e.1, applyToggle e.2 type v))
  rw [toggleDataset_foldl]
  simp

theorem toggleDataset_store (s : MgrState) (type : String) (v : Bool) :
    (toggleDataset s type v).store
      = s.charts.foldl (fun st e => saveDatasetState st e.1 type v) s.store := by
  show (s.charts.foldl (fun acc e => (acc.1 ++ [(e.1, applyToggle e.2 type v)],
      saveDatasetState acc.2 e.1 type v)) ([], s.store)).2
    = s.charts.foldl (fun st e => saveDatasetState st e.1 type v) s.store
  rw [toggleDataset_foldl]

theorem getVis_save_self (st : Store) (sid type : String) (v : Bool) :
    getVis (saveDatasetState st sid type v) sid type = some v := by
  unfold getVis saveDatasetState
  rw [alGet_alSet_self]
  simp [alGet_alSet_self]

theorem getVis_save_ne_sid (st : Store) (sid sid' type : String) (v : Bool) (m : String)
    (h : sid ≠ sid') :
    getVis (saveDatasetState st sid type v) sid' m = getVis st sid' m := by
  unfold getVis saveDatasetState
  rw [alGet_alSet_ne _ _ _ _ h]

theorem getVis_save_ne_metric (st : Store) (sid type : String) (v : Bool) (m : String)
    (h : m ≠ type) :
    getVis (saveDatasetState st sid type v) sid m = getVis st sid m := by
  unfold getVis saveDatasetState
  rw [alGet_alSet_self]
  cases hinner : alGet st.datasetStates sid with
  | none =>
    simp only [Option.getD_none, Option.some_bind, Option.none_bind]
    rw [alGet_alSet_ne ([] : List (String × Bool)) type m v (Ne.symm h)]
    rfl
  | some l => simp [hinner, alGet_alSet_ne _ type m v (Ne.symm h)]

theorem getVis_fold_not_mem (type : String) (v : Bool) (L : List (String × ChartJs)) :
    ∀ (st : Store) (sid m : String), sid ∉ L.map Prod.fst →
      getVis (L.foldl (fun st e => saveDatasetState st e.1 type v) st) sid m
        = getVis st sid m := by
  induction L with
  | nil => intro st sid m _; rfl
  | cons e rest ih =>
    intro st sid m h
    simp only [List.map_cons, List.mem_cons] at h
    push_neg at h
    rw [List.foldl_cons, ih _ sid m h.2, getVis_save_ne_sid _ _ _ _ _ _ (Ne.symm h.1)]

theorem getVis_fold_mem (type : String) (v : Bool) (L : List (String × ChartJs)) :
    ∀ (st : Store) (sid : String), sid ∈ L.map Prod.fst →
      getVis (L.foldl (fun st e => saveDatasetState st e.1 type v) st) sid type = some v := by
  induction L with
  | nil => intro st sid h; simp at h
  | cons e rest ih =>
    intro st sid h
    rw [List.foldl_cons]
    by_cases hm : sid ∈ rest.map Prod.fst
    · exact ih _ sid hm
    · have : sid = e.1 := by
        simp only [List.map_cons, List.mem_cons] at h
        tauto
      subst this
      rw [getVis_fold_not_mem type v rest _ e.1 type hm]
      exact getVis_save_self st e.1 type v

theorem getVis_fold_ne_metric (type : String) (v : Bool) (L : List (String × ChartJs))
    (m : String) (hm : m ≠ type) :
    ∀ (st : Store) (sid : String),
      getVis (L.foldl (fun st e => saveDatasetState st e.1 type v) st) sid m
        = getVis st sid m := by
  induction L with
  | nil => intro st sid; rfl
  | cons e rest ih =>
    intro st sid
    rw [List.foldl_cons, ih]
    by_cases hsid : e.1 = sid
    · subst hsid
      exact getVis_save_ne_metric st e.1 type v m hm
    · exact getVis_save_ne_sid st e.1 sid type v m hsid

/-- Claim C10 (frame property of `toggleDataset`): after
`toggleDataset(type, visible)`, the persisted entry `(sid, type)` equals
`visible` for every sensor with an active chart; persisted entries for other
metrics are unchanged for every sensor; and for sensors with no active chart
no persisted entry changes at all. -/
theorem c10_toggle_frame (s : MgrState) (type : String) (visible : Bool) (sid : String) :
    ((alGet s.charts sid).isSome →
      getVis (toggleDataset s type visible).store sid type = some visible) ∧
    (∀ m, m ≠ type →
      getVis (toggleDataset s type visible).store sid m = getVis s.store sid m) ∧
    ((alGet s.charts sid).isNone →
      ∀ m, getVis (toggleDataset s type visible).store sid m = getVis s.store sid m) := by
  rw [toggleDataset_store]
  refine ⟨fun h => ?_, fun m hm => getVis_fold_ne_metric type visible s.charts m hm _ sid,
    fun h m => ?_⟩
  · exact getVis_fold_mem type visible s.charts s.store sid
      ((alGet_isSome_iff_mem s.charts sid).mp h)
  · refine getVis_fold_not_mem type visible s.charts s.store sid m (fun hmem => ?_)
    rw [← alGet_isSome_iff_mem] at hmem
    rw [Option.isNone_iff_eq_none] at h
    rw [h] at hmem
    simp at hmem

theorem c10_witness :
    ((alGet st2.charts "a").isSome) ∧
    getVis (toggleDataset st2 "temperature" false).store "a" "temperature" = some false ∧
    getVis (toggleDataset st2 "temperature" false).store "a" "humidity"
      = getVis st2.store "a" "humidity" ∧
    getVis (toggleDataset st2 "temperature" false).store "zz" "temperature"
      = getVis st2.store "zz" "temperature" := by
  have h := c10_toggle_frame st2 "temperature" false "a"
  have h2 := c10_toggle_frame st2 "temperature" false "zz"
  exact ⟨by decide, h.1 (by decide), h.2.1 "humidity" (by decide), h2.2.2 (by decide) "temperature"⟩

theorem c6_counterexample :
    calculateMovingAverage (calculateMovingAverage ex5 3) 3 ≠ calculateMovingAverage ex5 3 := by
  intro h
  have h1 : calculateMovingAverage ex5 3 = [⟨0, 20⟩, ⟨1, 20⟩, ⟨2, 30⟩, ⟨3, 40⟩, ⟨4, 45⟩] := by
    norm_num [calculateMovingAverage, cmaPoint, round2, ex5, List.mapIdx, List.mapIdx.go]
  have h2 : calculateMovingAverage [⟨0, 20⟩, ⟨1, 20⟩, ⟨2, 30⟩, ⟨3, 40⟩, ⟨4, 45⟩] 3
      = [⟨0, 2333/100⟩, ⟨1, 2333/100⟩, ⟨2, 30⟩, ⟨3, 3833/100⟩, ⟨4, 425/10⟩] := by
    norm_num [calculateMovingAverage, cmaPoint, round2, List.mapIdx, List.mapIdx.go]
  rw [h1, h2] at h
  have h3 := congrArg (fun l => (l.map Point.y).head?) h
  norm_num at h3

/-- Claim C6 (amended): the smoother is pure by construction (in this model a
function of its input), and re-application always preserves the length and the
timestamps of a series; it is the identity — hence idempotent — whenever the
series is shorter than the window, but it is not idempotent in general:
re-applying it can change the values (see the counterexample on the spec's
five-point series with window 3). -/
theorem c6_smoother_reapply (data : List Point) (w : Nat) :
    (calculateMovingAverage data w).map Point.x = data.map Point.x ∧
    (calculateMovingAverage data w).length = data.length ∧
    (data.length < w →
      calculateMovingAverage (calculateMovingAverage data w) w
        = calculateMovingAverage data w) := by
  refine ⟨cma_map_x data w, cma_length data w, fun h => ?_⟩
  rw [cma_of_length_lt data w h]
  exact cma_of_length_lt data w h

theorem c6_witness :
    (ex5.length < 6) ∧
    (calculateMovingAverage ex5 6).map Point.x = ex5.map Point.x ∧
    calculateMovingAverage (calculateMovingAverage ex5 6) 6 = calculateMovingAverage ex5 6 := by
  have h := c6_smoother_reapply ex5 6
  exact ⟨by decide, h.1, h.2.2 (by decide)⟩

theorem sortByX_ne_nil (ms : List Measurement) (h : ms ≠ []) :
    sortByX (tempPoints ms) ≠ [] := by
  intro hnil
  have hlen := congrArg List.length hnil
  rw [sortByX, List.length_insertionSort, tempPoints, List.length_map] at hlen
  simp only [List.length_nil] at hlen
  exact h (List.length_eq_zero.mp hlen)

theorem selectXAxis_spec (sorted final : List Point) (old : Option XAxisConfig)
    (hh : final.head?.map Point.x = sorted.head?.map Point.x)
    (hl : final.getLast?.map Point.x = sorted.getLast?.map Point.x)
    (hne : sorted ≠ []) :
    selectXAxis final old
      = some (if 0 < specSpanDays sorted then multiDayAxis else singleDayAxis) := by
  cases hf : sorted.head? with
  | none =>
    exact absurd (List.head?_eq_none_iff.mp hf) hne
  | some f0 =>
    cases hg : sorted.getLast? with
    | none =>
      exact absurd (List.getLast?_eq_none_iff.mp hg) hne
    | some l0 =>
      rw [hf] at hh
      rw [hg] at hl
      obtain ⟨pf, hpf, hpfx⟩ := Option.map_eq_some'.mp hh
      obtain ⟨pl, hpl, hplx⟩ := Option.map_eq_some'.mp hl
      unfold selectXAxis specSpanDays
      rw [hpf, hpl, hf, hg]
      simp only [gt_iff_lt, hpfx, hplx, apply_ite some]

/-- Claim C5: for a chart with an existing handle and a non-empty measurement
batch, `updateChartData` picks the x scale by
`spanDays = ⌊(last - first) / 1 day⌋` over the displayed temperature series
(whose first/last timestamps equal those of the sorted raw series, smoothed or
not): the multi-day plan (hour unit, step 4, auto-skip off) when
`spanDays > 0`, else the single-day plan (hour unit, no step, auto-skip on). -/
theorem c5_axis_span_plan (s : MgrState) (id : String) (ms : List Measurement)
    (ch : ChartJs) (h : alGet s.charts id = some ch) (hne : ms ≠ []) :
    (alGet (updateChartData s id ms).charts id).map ChartJs.scaleX
      = some (some (if 0 < specSpanDays (sortByX (tempPoints ms)) then multiDayAxis
          else singleDayAxis)) := by
  unfold updateChartData
  rw [h]
  simp only [alGet_alSet_self, Option.map_some]
  have hsel : selectXAxis
      (if s.smoothingEnabled = true
        then calculateMovingAverage (sortByX (tempPoints ms)) s.windowSize
        else sortByX (tempPoints ms)) ch.scaleX
      = some (if 0 < specSpanDays (sortByX (tempPoints ms)) then multiDayAxis
          else singleDayAxis) := by
    by_cases hsm : s.smoothingEnabled = true
    · rw [if_pos hsm]
      exact selectXAxis_spec (sortByX (tempPoints ms)) _ ch.scaleX
        (cma_head?_x _ _) (cma_getLast?_x _ _) (sortByX_ne_nil ms hne)
    · rw [if_neg hsm]
      exact selectXAxis_spec (sortByX (tempPoints ms)) _ ch.scaleX rfl rfl
        (sortByX_ne_nil ms hne)
  rw [hsel]
  rfl

theorem c5_witness :
    (alGet st1.charts "a" = some ch1) ∧ mSpanA ≠ [] ∧ mSpanB ≠ [] ∧
    specSpanDays (sortByX (tempPoints mSpanA)) = 0 ∧
    specSpanDays (sortByX (tempPoints mSpanB)) = 1 ∧
    (alGet (updateChartData st1 "a" mSpanA).charts "a").map ChartJs.scaleX
      = some (some singleDayAxis) ∧
    (alGet (updateChartData st1 "a" mSpanB).charts "a").map ChartJs.scaleX
      = some (some multiDayAxis) := by
  have hA := c5_axis_span_plan st1 "a" mSpanA ch1 (by decide) (by decide)
  have hB := c5_axis_span_plan st1 "a" mSpanB ch1 (by decide) (by decide)
  have hvA : specSpanDays (sortByX (tempPoints mSpanA)) = 0 := by decide
  have hvB : specSpanDays (sortByX (tempPoints mSpanB)) = 1 := by decide
  rw [hvA] at hA
  rw [hvB] at hB
  rw [if_neg (by decide : ¬ (0 : Int) < 0)] at hA
  rw [if_pos (by decide : (0 : Int) < 1)] at hB
  exact ⟨by decide, by decide, by decide, hvA, hvB, hA, hB⟩


/-- Claim C2: on a series at least as long as the window (window ≥ 1), the
smoother returns a series of the same length whose point at every index `i`
keeps the input timestamp and carries the 2-decimal-rounded arithmetic mean of
the window of input values starting at `max(0, i - ⌊windowSize/2⌋)` and
extending `windowSize` points clamped to the series length. -/
theorem c2_smoother_spec (data : List Point) (w : Nat) (hw : 1 ≤ w)
    (hwl : w ≤ data.length) :
    (calculateMovingAverage data w).length = data.length ∧
    ∀ (i : Nat) (p : Point), data[i]? = some p →
      (calculateMovingAverage data w)[i]?
        = some { x := p.x, y := specSmoothValue data w i } := by
  have h0 : ¬ data.length = 0 := by omega
  have h1 : ¬ data.length < w := by omega
  have hunf : calculateMovingAverage data w = data.mapIdx (cmaPoint data w) := by
    unfold calculateMovingAverage
    rw [if_neg h0, if_neg h1]
  constructor
  · rw [hunf]
    exact List.length_mapIdx
  · intro i p hp
    have hi : i < data.length := by
      by_contra hni
      rw [List.getElem?_eq_none (by omega)] at hp
      exact Option.noConfusion hp
    rw [hunf, List.mapIdx_eq_enum_map, List.getElem?_map, List.getElem?_enum, hp]
    show some (cmaPoint data w i p) = some { x := p.x, y := specSmoothValue data w i }
    refine congrArg some ?_
    have hwin : (data.drop (i - w / 2)).take (min data.length (i - w / 2 + w) - (i - w / 2))
        = (data.drop (i - w / 2)).take w := by
      apply List.take_eq_take.mpr
      rw [List.length_drop]
      omega
    simp only [cmaPoint, specSmoothValue, specWindow]
    rw [hwin, foldl_add_y _ 0, zero_add, List.length_map]

theorem c2_witness :
    (1 ≤ 3 ∧ 3 ≤ ex5.length) ∧
    (calculateMovingAverage ex5 3).length = ex5.length ∧
    ex5[2]? = some ⟨2, 30⟩ ∧
    (calculateMovingAverage ex5 3)[2]? = some ⟨2, specSmoothValue ex5 3 2⟩ ∧
    specSmoothValue ex5 3 2 = 30 ∧
    ex5[0]? = some ⟨0, 10⟩ ∧
    (calculateMovingAverage ex5 3)[0]? = some ⟨0, specSmoothValue ex5 3 0⟩ ∧
    specSmoothValue ex5 3 0 = 20 := by
  have h := c2_smoother_spec ex5 3 (by decide) (by decide)
  refine ⟨⟨by decide, by decide⟩, h.1, by decide, h.2 2 ⟨2, 30⟩ (by decide), ?_, by decide,
    h.2 0 ⟨0, 10⟩ (by decide), ?_⟩
  · norm_num [specSmoothValue, specWindow, round2, ex5]
  · norm_num [specSmoothValue, specWindow, round2, ex5]

end HomeMon
